import Mathlib

/-!
Shallow embedding of the database access core of `dbc` (Rust), covering:

* query normalization (`parse_query`, src/server/src/db.rs:1222-1274),
* query classification (`query_type`, db.rs:1289-1305),
* filter WHERE-clause generation (`Filter::where_clause`, db.rs:207-264) and
  the parameter collection of `paginated_query` (db.rs:896-928),
* pagination metadata and the page/count query strings (db.rs:930-995),
* server error position adjustment (db.rs:1164-1220),
* connection liveness (`Connection::is_live` / `spawn_conn`, db.rs:48-155),
* pool deque operations (src/server/src/pool.rs:31-59, 190-235),
* registry pool-creation completion (`State::get_conn` / `create_pool`,
  src/server/src/lib.rs:133-205, 245-266),
* DDL column rendering (`table_ddl`, db.rs:654-722).

Rust strings are modelled as Lean `String`/`List Char` (lengths counted in
characters), machine integers as `Nat`/`Int` with explicit wrapping where the
source casts, and fallible or diverging code as `Option` (with `none` marking
the diverging/panicking branch, as noted at each definition).
-/

namespace Dbc

/-! ### Query normalization (db.rs:1222-1274) -/

/-- Scanner positions of the comment-stripping loop of `parse_query`
(db.rs:1225-1261).  The Rust code uses a `Peekable<Chars>` iterator; the
one-character lookahead of `next_if` is modelled by the `dash` / `slash` /
`blockStar` states, which record a consumed-but-not-yet-resolved character:

* `normal` — top of the `while let Some(c)` loop;
* `dash` — a `-` was consumed, deciding between a `--` comment and a plain
  push (db.rs:1230-1240);
* `slash` — a `/` was consumed, deciding between a `/*` comment and a plain
  push (db.rs:1242-1257);
* `line` — inside a `--` comment, consuming through the newline
  (db.rs:1233-1237);
* `block` — inside a `/* */` comment (db.rs:1244-1254);
* `blockStar` — inside a block comment right after a `*`, deciding whether a
  `/` follows (db.rs:1247-1251). -/
inductive StripState
  | normal
  | dash
  | slash
  | line
  | block
  | blockStar
deriving DecidableEq

/-- One-pass transcription of the comment-stripping loop of `parse_query`
(db.rs:1225-1261).  On exhausted input a pending `-` or `/` is pushed (the
failed `next_if` peek), a line comment simply ends, and an unterminated block
comment makes the Rust loop spin forever on `chars.next() == None`
(db.rs:1244-1254 matches `None` with the wildcard arm and never breaks):
`none` models that infinite loop. -/
def strip : List Char → StripState → Option (List Char)
  | [], .normal => some []
  | [], .dash => some ['-']
  | [], .slash => some ['/']
  | [], .line => some []
  | [], .block => none
  | [], .blockStar => none
  | c :: rest, .normal =>
    if c = '-' then strip rest .dash
    else if c = '/' then strip rest .slash
    else (strip rest .normal).map (fun acc => c :: acc)
  | c :: rest, .dash =>
    if c = '-' then strip rest .line
    else if c = '/' then (strip rest .slash).map (fun acc => '-' :: acc)
    else (strip rest .normal).map (fun acc => '-' :: c :: acc)
  | c :: rest, .slash =>
    if c = '*' then strip rest .block
    else if c = '-' then (strip rest .dash).map (fun acc => '/' :: acc)
    else if c = '/' then (strip rest .slash).map (fun acc => '/' :: acc)
    else (strip rest .normal).map (fun acc => '/' :: c :: acc)
  | c :: rest, .line =>
    if c = '\n' then strip rest .normal
    else strip rest .line
  | c :: rest, .block =>
    if c = '*' then strip rest .blockStar
    else strip rest .block
  | c :: rest, .blockStar =>
    if c = '/' then strip rest .normal
    else if c = '*' then strip rest .blockStar
    else strip rest .block

/-- Comment stripping pass of `parse_query` (db.rs:1225-1261): run the
scanner from the top of the loop.  `none` models the non-terminating
block-comment loop (see `strip`). -/
def stripComments (l : List Char) : Option (List Char) :=
  strip l .normal

/-- Trim of surrounding whitespace, modelling `str::trim` (db.rs:1263) at the
ASCII level (`Char.isWhitespace` covers space, tab, newline, carriage return). -/
def trimList (l : List Char) : List Char :=
  (((l.dropWhile Char.isWhitespace).reverse.dropWhile Char.isWhitespace).reverse)

/-- Truncation at the first semicolon (db.rs:1265-1273): Rust's
`split_once(';')` keeps the part before the first `;` when one exists
(both the `Some((q, ""))` and `Some((q, _))` arms keep `q`), and the whole
string otherwise. -/
def first_statement (l : List Char) : List Char :=
  if l.contains ';' then l.takeWhile (fun c => c ≠ ';') else l

/-- Embedding of `parse_query` (db.rs:1222-1274): strip comments, trim, take
the first semicolon-delimited statement.  `none` models the divergence of the
comment stripper on an unterminated block comment. -/
def parse_query (s : String) : Option String :=
  (stripComments s.data).map (fun acc => ⟨first_statement (trimList acc)⟩)

/-- Decidable check that a character list contains neither a `--` nor a `/*`
two-character sequence, i.e. the raw SQL contains no comment openers. -/
def comment_free : List Char → Bool
  | [] => true
  | c :: rest =>
    (match rest.head? with
     | some d => !(c = '-' && d = '-') && !(c = '/' && d = '*')
     | none => true) && comment_free rest

/-! ### Query classification (db.rs:1276-1305) -/

/-- Modelled from `QueryType` (db.rs:1278-1287). -/
inductive QueryType
  | select
  | modifyData
  | modifyStructure
  | explain
deriving DecidableEq

/-- Per-character ASCII lowercasing, modelling `str::to_ascii_lowercase`. -/
def lower_char (c : Char) : Char :=
  if 'A' ≤ c ∧ c ≤ 'Z' then Char.ofNat (c.toNat + 32) else c

/-- Lowercased copy of the query text (db.rs:1290). -/
def to_ascii_lowercase (s : String) : String :=
  ⟨s.data.map lower_char⟩

/-- Splitting at every separator character, keeping empty pieces between
adjacent separators, as Rust's `str::split` does; `acc` holds the current
piece reversed. -/
def split_acc (p : Char → Bool) : List Char → List Char → List String
  | [], acc => [⟨acc.reverse⟩]
  | c :: rest, acc =>
    if p c then (⟨acc.reverse⟩ : String) :: split_acc p rest []
    else split_acc p rest (c :: acc)

/-- Tokenization by the two separator characters of
`query.split(&[' ', '\n'])` (db.rs:1291). -/
def split_tokens (s : String) : List String :=
  split_acc (fun c => c = ' ' || c = '\n') s.data []

/-- Token scan of `query_type` (db.rs:1293-1304): the first token matching a
keyword determines the class; a scan that matches nothing yields `select`. -/
def classify_tokens : List String → QueryType
  | [] => .select
  | t :: ts =>
    if t = "explain" then .explain
    else if t = "insert" || t = "update" || t = "delete" then .modifyData
    else if t = "create" || t = "alter" || t = "drop" || t = "truncate" || t = "comment" then
      .modifyStructure
    else classify_tokens ts

/-- Embedding of `query_type` (db.rs:1289-1305). -/
def query_type (q : String) : QueryType :=
  classify_tokens (split_tokens (to_ascii_lowercase q))

/-- Classification written from the specification's words: tokenize the
lowercased text by the separator characters, classify each token by the
keyword table, and take the first token that matches any keyword. -/
def keyword_class (t : String) : Option QueryType :=
  if t = "explain" then some .explain
  else if t ∈ ["insert", "update", "delete"] then some .modifyData
  else if t ∈ ["create", "alter", "drop", "truncate", "comment"] then some .modifyStructure
  else none

/-- Specification-side classifier for the refinement comparison with
`query_type`. -/
def query_type_spec (q : String) : QueryType :=
  (((split_tokens (to_ascii_lowercase q)).findSome? keyword_class)).getD .select

/-! ### Connection liveness (db.rs:48-67, 114-155)

`spawn_conn` (db.rs:48-67) runs the wire's future against the kill receiver:
on either branch — the wire erroring or the kill signal — the task fires the
liveness one-shot (`tx.send(())`) and exits.  While the task runs, the
channel holds no message. -/

/-- State of the liveness one-shot channel owned by a `Connection`. -/
inductive LivenessChannel
  | running
  | fired
deriving DecidableEq

/-- Receiver half kept by the `Connection` (db.rs:117): `none` after `take_if`
has removed it. -/
structure ConnState where
  rx : Option LivenessChannel
deriving DecidableEq

/-- Result of `Receiver::try_recv().is_ok()`: `true` exactly when the task has
exited and its liveness message is waiting. -/
def try_recv_ok : LivenessChannel → Bool
  | .fired => true
  | .running => false

/-- Embedding of `Connection::is_live` (db.rs:142-144):
`self.rx.take_if(|rx| rx.try_recv().is_ok()).is_some()`.  `take_if` removes
`rx` exactly when the predicate holds, and the call returns whether it was
removed; `try_recv` consumes the message when one is present.  Returns the
boolean result together with the mutated connection state. -/
def is_live (c : ConnState) : Bool × ConnState :=
  match c.rx with
  | none => (false, ⟨none⟩)
  | some ch => if try_recv_ok ch then (true, ⟨none⟩) else (false, ⟨some ch⟩)

/-- Connection state right after the background task of `spawn_conn` has
exited (wire error or kill): the liveness one-shot has been fired
(db.rs:64-65) and the receiver is still held. -/
def after_task_exit : ConnState := ⟨some .fired⟩

/-! ### Filters and WHERE-clause generation (db.rs:184-264, 869-928) -/

/-- Modelled from `FilterOp` (db.rs:186-197).  `isNull`/`isNotNull` stand for
the source's `Null`/`NotNull` variants. -/
inductive FilterOp
  | eq
  | neq
  | like
  | notLike
  | isNull
  | isNotNull
  | gt
  | gte
  | lt
  | lte
deriving DecidableEq

/-- Modelled from `Filter` (db.rs:199-205); the JSON `value` is abstracted as
an opaque string (it is only moved, never inspected, on the modelled paths). -/
structure Filter where
  index : Nat
  column : String
  operator : FilterOp
  value : String
deriving DecidableEq

/-- Embedding of `Filter::uses_param` (db.rs:258-263). -/
def uses_param (f : Filter) : Bool :=
  match f.operator with
  | .isNull | .isNotNull => false
  | _ => true

/-- Embedding of `Filter::sql_op` (db.rs:243-256). -/
def sql_op : FilterOp → String
  | .eq => "="
  | .neq => "!="
  | .like => "ILIKE"
  | .notLike => "NOT ILIKE"
  | .isNull => "IS NULL"
  | .isNotNull => "IS NOT NULL"
  | .gt => ">"
  | .gte => ">="
  | .lt => "<"
  | .lte => "<="

/-- Doubling of embedded double quotes, modelling
`col_name.replace('"', "\"\"")` (db.rs:240). -/
def escape_quotes (s : String) : String :=
  ⟨s.data.foldr (fun c acc => if c = '"' then '"' :: '"' :: acc else c :: acc) []⟩

/-- Embedding of `Filter::col_name` (db.rs:239-241):
`format!("\"{}.{}\"", col_idx, col_name.replace('"', "\"\""))`. -/
def col_name (col_idx : Nat) (name : String) : String :=
  "\"" ++ toString col_idx ++ "." ++ escape_quotes name ++ "\""

/-- Embedding of `Filter::where_clause` (db.rs:208-237): given the running
parameter counter `param_idx`, produce whether a parameter is consumed and
the SQL fragment (placeholder text `$<param_idx+1>`). -/
def where_clause (f : Filter) (param_idx : Nat) : Bool × String :=
  match uses_param f, f.operator with
  | true, .like | true, .notLike =>
    (true,
      col_name f.index f.column ++ " " ++ sql_op f.operator ++
        " CONCAT('%', $" ++ toString (param_idx + 1) ++ "::text, '%')")
  | true, _ =>
    (true,
      col_name f.index f.column ++ " " ++ sql_op f.operator ++
        " $" ++ toString (param_idx + 1))
  | false, _ =>
    (false, col_name f.index f.column ++ " " ++ sql_op f.operator)

/-- Scan of `paginated_query` over the filters (db.rs:902-912): the counter
starts at the given value and advances only past parameter-using filters. -/
def where_clauses : List Filter → Nat → List String
  | [], _ => []
  | f :: fs, i =>
    match where_clause f i with
    | (true, c) => c :: where_clauses fs (i + 1)
    | (false, c) => c :: where_clauses fs i

/-- WHERE fragments as generated by `paginated_query`: the scan starts at
counter value `0` (db.rs:904 — `.scan(0, ...)`). -/
def filter_clauses (fs : List Filter) : List String :=
  where_clauses fs 0

/-- Values of the parameter-using filters (db.rs:917-920). -/
def filter_params (fs : List Filter) : List String :=
  fs.filterMap (fun f => if uses_param f then some f.value else none)

/-- Parameter vector passed to `prepare_params` (db.rs:922-926): the user's
parameters followed by the filter values. -/
def combined_params (user_params : List String) (fs : List Filter) : List String :=
  user_params ++ filter_params fs

/-! ### Wrapped query construction (db.rs:869-947) -/

/-- CTE opening of the wrapped query (db.rs:871-880):
`format!("WITH q({}) AS (\n", <indexed col names joined by ", ">)`. -/
def filter_header (cols : List String) : String :=
  "WITH q(" ++
    String.intercalate ", " (cols.enum.map (fun ic => col_name ic.1 ic.2)) ++
    ") AS (\n"

/-- Outer SELECT aliases (db.rs:882-894): each indexed column is re-aliased
to its original name with embedded quotes doubled. -/
def select_aliases (cols : List String) : String :=
  String.intercalate ", "
    (cols.enum.map (fun ic =>
      col_name ic.1 ic.2 ++ " AS \"" ++ escape_quotes ic.2 ++ "\""))

/-- Everything the wrapped query appends after the user's text
(db.rs:896-915): the CTE close, the aliasing SELECT, and the optional WHERE. -/
def filter_tail (cols : List String) (fs : List Filter) : String :=
  "\n)\nSELECT " ++ select_aliases cols ++ " FROM q" ++
    (if fs.isEmpty then "" else "\nWHERE ") ++
    String.intercalate " AND " (filter_clauses fs)

/-- The filtered wrapping query (db.rs:896-915): header, user text, tail. -/
def filtered_query (cols : List String) (raw : String) (fs : List Filter) : String :=
  filter_header cols ++ raw ++ filter_tail cols fs

/-- The count query (db.rs:932):
`format!("SELECT COUNT(*) FROM (\n{base_query}\n) _;")`. -/
def count_query (base : String) : String :=
  "SELECT COUNT(*) FROM (\n" ++ base ++ "\n) _;"

/-- Modelled from `Sort` (db.rs:772-776); the direction is rendered upper-case
by the `Display` instance (db.rs:784-791). -/
inductive SortDirection
  | asc
  | desc
deriving DecidableEq

/-- Sort order requested for the page query. -/
structure QuerySort where
  column_idx : Nat
  direction : SortDirection
deriving DecidableEq

/-- Rendering of `SortDirection` (db.rs:784-791). -/
def sort_direction_str : SortDirection → String
  | .asc => "ASC"
  | .desc => "DESC"

/-- The optional ORDER BY fragment of the page query (db.rs:941-943):
`sort.map(|s| format!("ORDER BY {} {}", s.column_idx + 1, s.direction))`. -/
def sort_clause : Option QuerySort → String
  | none => ""
  | some s => "ORDER BY " ++ toString (s.column_idx + 1) ++ " " ++ sort_direction_str s.direction

/-- The page query (db.rs:934-947): with a negative page size the base query
is used as-is; otherwise a LIMIT/OFFSET wrapper is appended, with
`limit = page_size as usize` and `offset = (page - 1) * limit`. -/
def page_query (base : String) (sort : Option QuerySort) (page : Nat) (page_size : Int) : String :=
  if page_size < 0 then base
  else
    "SELECT * FROM (\n" ++ base ++ "\n) _ " ++ sort_clause sort ++
      " LIMIT " ++ toString page_size.toNat ++
      " OFFSET " ++ toString ((page - 1) * page_size.toNat) ++ ";"

/-! ### Pagination metadata (db.rs:930-995)

The SQL semantics of `LIMIT l OFFSET o` over an ordered result set is
modelled as `(rows.drop o).take l`; the count query returns the length of the
full filtered result set. -/

/-- Rows of the requested page (db.rs:934-947 plus the database's
LIMIT/OFFSET semantics): with a negative page size the whole result set. -/
def page_rows (rows : List α) (page : Nat) (page_size : Int) : List α :=
  if page_size < 0 then rows
  else (rows.drop ((page - 1) * page_size.toNat)).take page_size.toNat

/-- Embedding of the `total_pages` computation (db.rs:980-984):
`1` when the page size is negative, else `total_count.div_ceil(page_size)`
(`usize::div_ceil n = (n + d - 1) / d` for a positive divisor). -/
def total_pages_of (total : Nat) (page_size : Int) : Nat :=
  if page_size < 0 then 1
  else (total + page_size.toNat - 1) / page_size.toNat

/-- Select metadata assembled by `paginated_query` (db.rs:978-995). -/
structure SelectMeta where
  page : Nat
  page_size : Int
  page_count : Nat
  total_count : Nat
  total_pages : Nat
deriving DecidableEq

/-- Embedding of the Select result assembly of `paginated_query`
(db.rs:978-995): `page_count` is the number of rows the page query returned,
`total_count` the count query's value. -/
def paginated_select (rows : List α) (page : Nat) (page_size : Int) : SelectMeta :=
  { page := page
    page_size := page_size
    page_count := (page_rows rows page page_size).length
    total_count := rows.length
    total_pages := total_pages_of rows.length page_size }

/-- Ceiling division written from the specification's words
(`total_pages = ceil(T / p)`). -/
def spec_ceil (t p : Nat) : Nat :=
  t / p + (if t % p = 0 then 0 else 1)

/-! ### Error position adjustment (db.rs:949-973, 1133-1220) -/

/-- Modelled from `tokio_postgres::error::ErrorPosition`: the server reports
either a position in the original query text or a position in an internally
generated query. -/
inductive ErrorPosition
  | original (pos : Nat)
  | internal (pos : Nat) (query : String)

/-- Embedding of the position extraction in
`From<tokio_postgres::error::Error> for PgError` (db.rs:1204-1212):
`Original` positions are kept, `Internal` positions are dropped. -/
def extract_position : Option ErrorPosition → Option Nat
  | some (.original p) => some p
  | some (.internal _ _) => none
  | none => none

/-- Offset applied to a count-query error (db.rs:966):
`-23 - (filter_prefix.len() as i32)`. -/
def count_query_offset (fp_len : Nat) : Int :=
  -23 - (fp_len : Int)

/-- The page-query base offset (db.rs:934-947): `0` when the page size is
negative (the base query runs bare), else `-16`; db.rs:955 subtracts the
header length from it. -/
def page_query_base_offset (page_size : Int) : Int :=
  if page_size < 0 then 0 else -16

/-- Embedding of `PgError::offset_position` (db.rs:1168-1173):
`*pos = ((*pos as i32) + offset_by) as u32`, with the two casts modelled as
two's-complement reinterpretations. -/
def offset_position (pos : Nat) (offset_by : Int) : Nat :=
  let p32 : Int := if pos < 2 ^ 31 then (pos : Int) else (pos : Int) - 2 ^ 32
  ((((p32 + offset_by) % 2 ^ 32) + 2 ^ 32) % 2 ^ 32).toNat

/-! ### Pool deque operations (pool.rs:31-59, 190-235, 271-287)

The pool's `VecDeque<Connection>` is modelled as a list whose head is the
deque's front. -/

/-- Modelled from `VecDeque::push_front`, as used when a live connection is
checked back in (pool.rs:49) and when a replacement is spawned
(pool.rs:272-276). -/
def push_front (c : α) (d : List α) : List α :=
  c :: d

/-- Modelled from `VecDeque::pop_back`, as used by checkout
(pool.rs:190 — `inner.conns.pop_back()`). -/
def pop_back (d : List α) : Option (α × List α) :=
  match d.getLast? with
  | none => none
  | some x => some (x, d.dropLast)

/-- Embedding of the deque effect of `Drop for CheckedOutConnection`
(pool.rs:44-52) on a live pool: a live connection returns to the front,
otherwise a freshly spawned replacement is pushed to the front. -/
def check_in (live : Bool) (replacement : α) (c : α) (d : List α) : List α :=
  if live then push_front c d else push_front replacement d

/-! ### Registry pool-creation completion (lib.rs:133-205, 245-266) -/

/-- Modelled from `PoolState` (lib.rs:24-41), with the pool payload erased. -/
inductive PoolState
  | active
  | failed (msg : String)
  | pending
deriving DecidableEq

/-- Outcome of `create_pool` (lib.rs:245-266): `ok` for `Ok(Active)`,
`failedPool` for `Ok(Failed(msg))` (pool construction failed), and
`bubbledErr` for an `Err` bubbled out of the post-construction checkout or
version probe (lib.rs:253-254), which `get_conn` re-raises with `?`
(lib.rs:172). -/
inductive PoolCreateRes
  | ok
  | failedPool (msg : String)
  | bubbledErr (msg : String)
deriving DecidableEq

/-- Observable completion of one creation attempt: the registry entry for the
key when `get_conn` returns (`none` when the attempt restarts from the top),
whether `notify.notify_waiters()` ran (lib.rs:202), and whether the attempt
observed cancellation and retried. -/
structure CompletionResult where
  entry : Option PoolState
  notified : Bool
  retried : Bool
deriving DecidableEq

/-- Embedding of the completion paths of `State::get_conn` after it has
installed the `Pending` marker (lib.rs:146-205).  `pw_err` is the password
materialization outcome (lib.rs:157), `cancel_at_pw` / `cancel_at_pool` the
results of the `cancel_rx.try_recv().is_ok()` checks (lib.rs:164, 177, 190),
and `pool_res` the outcome of `create_pool`.

Path correspondence:
* password failure, cancelled: lib.rs:164-166 — recurse, no notify;
* password failure, not cancelled: lib.rs:168-169 — install `Failed` and
  return **before** reaching `notify.notify_waiters()` at lib.rs:202;
* `create_pool` bubbles `Err`: lib.rs:172 — the `?` returns with the
  `Pending` entry still installed and no notification;
* pool active / pool failed: lib.rs:173-196 — on cancellation recurse,
  otherwise install the final state and fall through to lib.rs:202. -/
def complete_creation (pw_err : Option String) (cancel_at_pw : Bool)
    (pool_res : PoolCreateRes) (cancel_at_pool : Bool) : CompletionResult :=
  match pw_err with
  | some e =>
    if cancel_at_pw then ⟨none, false, true⟩
    else ⟨some (.failed ("Failed to load password: " ++ e)), false, false⟩
  | none =>
    match pool_res with
    | .bubbledErr _ => ⟨some .pending, false, false⟩
    | .ok =>
      if cancel_at_pool then ⟨none, false, true⟩
      else ⟨some .active, true, false⟩
    | .failedPool e =>
      if cancel_at_pool then ⟨none, false, true⟩
      else ⟨some (.failed ("Failed to open connection pool: " ++ e)), true, false⟩

/-- Property asserted by the specification for every completion of the
creation path: the attempt observed cancellation and retried, or it replaced
the `Pending` entry with `Active` or `Failed` and notified the waiters. -/
def completion_ok (r : CompletionResult) : Prop :=
  r.retried = true ∨
    (r.notified = true ∧
      (r.entry = some .active ∨ ∃ m, r.entry = some (.failed m)))

/-! ### DDL column rendering (db.rs:608-742) -/

/-- Modelled from the `information_schema.columns` row consumed by
`table_ddl` (db.rs:611-624, 654-722). -/
structure ColumnRow where
  column_name : String
  column_default : Option String
  is_nullable : String
  data_type : String
  character_maximum_length : Option Int
  numeric_precision : Option Int
  numeric_scale : Option Int
deriving DecidableEq

/-- Numeric-precision handling of `table_ddl` (db.rs:661-689): integer types
are renamed by precision, decimal types get a `(precision, scale)` postfix.
`none` models the `unreachable!` panic for an integer precision outside
{8, 16, 32}. -/
def int_precision_rename (dt : String) (prec : Int) (scale : Option Int) :
    Option (String × Option String) :=
  if dt = "integer" then
    if prec = 8 then some ("smallint", none)
    else if prec = 16 then some ("integer", none)
    else if prec = 32 then some ("bigint", none)
    else none
  else if dt = "smallint" then some (dt, none)
  else if dt = "bigint" then some (dt, none)
  else
    some (dt,
      some ("(" ++ toString prec ++ ", " ++
        (match scale with | some n => toString n | none => "?") ++ ")"))

/-- Final assembly of one column definition line (db.rs:691-722), given the
possibly renamed data type and precision postfix. -/
def render_column_def (r : ColumnRow) (dt : String) (ps : Option String)
    (pkey : Option String) : String :=
  let char_len : Option String :=
    match r.character_maximum_length with
    | none => none
    | some n => some ("(" ++ toString n ++ ")")
  r.column_name ++ " " ++ dt ++ ((ps.or char_len).getD "") ++
    (if pkey = some r.column_name then " PRIMARY KEY" else "") ++
    (if r.is_nullable = "YES" then " NOT NULL" else "") ++
    (match r.column_default with
     | some d => " DEFAULT " ++ d
     | none => "")

/-- Embedding of the per-row column definition of `table_ddl`
(db.rs:654-722).  `none` models the `unreachable!` panic on an unexpected
integer precision. -/
def column_def (pkey : Option String) (r : ColumnRow) : Option String :=
  match r.numeric_precision with
  | some prec =>
    match int_precision_rename r.data_type prec r.numeric_scale with
    | none => none
    | some (dt, ps) => some (render_column_def r dt ps pkey)
  | none => some (render_column_def r r.data_type none pkey)

/-- Column definition written from the claim's words: a column with
`is_nullable = 'YES'` produces no NOT NULL suffix, any other value gets
`NOT NULL` appended (everything else as in the source). -/
def render_column_def_claim (r : ColumnRow) (dt : String) (ps : Option String)
    (pkey : Option String) : String :=
  let char_len : Option String :=
    match r.character_maximum_length with
    | none => none
    | some n => some ("(" ++ toString n ++ ")")
  r.column_name ++ " " ++ dt ++ ((ps.or char_len).getD "") ++
    (if pkey = some r.column_name then " PRIMARY KEY" else "") ++
    (if r.is_nullable = "YES" then "" else " NOT NULL") ++
    (match r.column_default with
     | some d => " DEFAULT " ++ d
     | none => "")

/-- Claim-side variant of `column_def` (inverted NOT NULL emission). -/
def column_def_claim (pkey : Option String) (r : ColumnRow) : Option String :=
  match r.numeric_precision with
  | some prec =>
    match int_precision_rename r.data_type prec r.numeric_scale with
    | none => none
    | some (dt, ps) => some (render_column_def_claim r dt ps pkey)
  | none => some (render_column_def_claim r r.data_type none pkey)

/-- Amended-claim rendering: build the definition line without a nullability
marker, then append `NOT NULL` exactly when `is_nullable = 'YES'`, then the
default clause. -/
def render_column_def_amended (r : ColumnRow) (dt : String) (ps : Option String)
    (pkey : Option String) : String :=
  let char_len : Option String :=
    match r.character_maximum_length with
    | none => none
    | some n => some ("(" ++ toString n ++ ")")
  let base :=
    r.column_name ++ " " ++ dt ++ ((ps.or char_len).getD "") ++
      (if pkey = some r.column_name then " PRIMARY KEY" else "")
  let with_null := if r.is_nullable = "YES" then base ++ " NOT NULL" else base
  with_null ++
    (match r.column_default with
     | some d => " DEFAULT " ++ d
     | none => "")

/-- Amended-claim column definition: the `NOT NULL` suffix is emitted exactly
for `is_nullable = 'YES'` (as the code does). -/
def column_def_amended (pkey : Option String) (r : ColumnRow) : Option String :=
  match r.numeric_precision with
  | some prec =>
    match int_precision_rename r.data_type prec r.numeric_scale with
    | none => none
    | some (dt, ps) => some (render_column_def_amended r dt ps pkey)
  | none => some (render_column_def_amended r r.data_type none pkey)

/-! ## Theorems -/

/-- Helper: the token scan of the source equals the first-match classifier
written from the specification. -/
theorem classify_tokens_eq_findSome :
    ∀ l : List String, classify_tokens l = (l.findSome? keyword_class).getD .select := by
  intro l
  induction l with
  | nil => rfl
  | cons t ts ih =>
    rw [List.findSome?_cons]
    by_cases h1 : t = "explain"
    · subst h1; rfl
    by_cases h2 : t = "insert"
    · subst h2; rfl
    by_cases h3 : t = "update"
    · subst h3; rfl
    by_cases h4 : t = "delete"
    · subst h4; rfl
    by_cases h5 : t = "create"
    · subst h5; rfl
    by_cases h6 : t = "alter"
    · subst h6; rfl
    by_cases h7 : t = "drop"
    · subst h7; rfl
    by_cases h8 : t = "truncate"
    · subst h8; rfl
    by_cases h9 : t = "comment"
    · subst h9; rfl
    simp [classify_tokens, keyword_class, h1, h2, h3, h4, h5, h6, h7, h8, h9, ih]

/-- C7: classification tokenizes the lowercased text by space and newline and
returns the first token matching the keyword table, in the order explain,
then insert/update/delete, then create/alter/drop/truncate/comment, with
Select when nothing matches; and the result depends only on the token list of
the lowercased text (hence only on token identity, case-insensitively). -/
theorem C7_query_classification :
    (∀ s, query_type s = query_type_spec s) ∧
    (∀ s t, split_tokens (to_ascii_lowercase s) = split_tokens (to_ascii_lowercase t) →
      query_type s = query_type t) := by
  constructor
  · intro s
    unfold query_type query_type_spec
    exact classify_tokens_eq_findSome _
  · intro s t h
    unfold query_type
    rw [h]

/-- Witness for C7 at concrete inputs differing only in letter case. -/
theorem C7_witness : query_type "TRUNCATE tbl" = query_type "truncate TBL" :=
  C7_query_classification.2 "TRUNCATE tbl" "truncate TBL" (by decide)

/-- Helper: on comment-free input the stripping scanner is the identity, in
all three states that can be reached on comment-free input. -/
theorem strip_comment_free :
    ∀ l : List Char,
      (comment_free l = true → strip l .normal = some l) ∧
      (comment_free ('-' :: l) = true → strip l .dash = some ('-' :: l)) ∧
      (comment_free ('/' :: l) = true → strip l .slash = some ('/' :: l)) := by
  intro l
  induction l with
  | nil => exact ⟨fun _ => rfl, fun _ => rfl, fun _ => rfl⟩
  | cons c rest ih =>
    obtain ⟨ih1, ih2, ih3⟩ := ih
    refine ⟨?_, ?_, ?_⟩
    · intro h
      have hrest : comment_free rest = true := by
        rw [comment_free, Bool.and_eq_true] at h
        exact h.2
      by_cases hc1 : c = '-'
      · subst hc1
        simp only [strip, if_pos rfl]
        exact ih2 h
      by_cases hc2 : c = '/'
      · subst hc2
        simp only [strip, reduceIte]
        exact ih3 h
      · simp only [strip, if_neg hc1, if_neg hc2]
        rw [ih1 hrest]
        rfl
    · intro h
      rw [comment_free, Bool.and_eq_true] at h
      obtain ⟨hg, hrest2⟩ := h
      simp only [List.head?_cons] at hg
      have hc1 : ¬(c = '-') := by
        intro hc; subst hc; simp at hg
      have hrest : comment_free rest = true := by
        rw [comment_free, Bool.and_eq_true] at hrest2
        exact hrest2.2
      by_cases hc2 : c = '/'
      · subst hc2
        simp only [strip, reduceIte]
        rw [ih3 hrest2]
        rfl
      · simp only [strip, if_neg hc1, if_neg hc2]
        rw [ih1 hrest]
        rfl
    · intro h
      rw [comment_free, Bool.and_eq_true] at h
      obtain ⟨hg, hrest2⟩ := h
      simp only [List.head?_cons] at hg
      have hcstar : ¬(c = '*') := by
        intro hc; subst hc; simp at hg
      have hrest : comment_free rest = true := by
        rw [comment_free, Bool.and_eq_true] at hrest2
        exact hrest2.2
      by_cases hc1 : c = '-'
      · subst hc1
        simp only [strip, reduceIte]
        rw [ih2 hrest2]
        rfl
      by_cases hc2 : c = '/'
      · subst hc2
        simp only [strip, reduceIte]
        rw [ih3 hrest2]
        rfl
      · simp only [strip, if_neg hcstar, if_neg hc1, if_neg hc2]
        rw [ih1 hrest]
        rfl

/-- C8: normalization strips line and block comments (the first `*/` closes a
block comment — no nesting, as the concrete second conjunct shows), trims
surrounding whitespace and keeps the text preceding the first `;`; on a
string with no comment openers the output is exactly the trim of the input
truncated at the first semicolon. -/
theorem C8_strip_comments_roundtrip :
    (∀ s : String, comment_free s.data = true →
      parse_query s = some (String.mk (first_statement (trimList s.data)))) ∧
    parse_query "a /* b /* c */ d" = some "a  d" := by
  constructor
  · intro s h
    unfold parse_query stripComments
    rw [(strip_comment_free s.data).1 h]
    rfl
  · decide

/-- Witness for C8 at a concrete comment-free input. -/
theorem C8_witness : parse_query " select 1 ; drop t" = some "select 1 " :=
  (C8_strip_comments_roundtrip.1 " select 1 ; drop t" (by decide)).trans (by decide)

/-- C10: the comment-stripping loop of `parse_query` does not terminate on an
unterminated block comment — the scanner reaches the end of input inside a
block comment, where the Rust loop spins on `chars.next() == None` forever;
`none` is the divergence marker of the embedding.  The claim that
`parse_query` terminates on every input is therefore violated by the code. -/
theorem C10_unterminated_block_comment :
    stripComments "/*".data = none ∧
    parse_query "select 1 /* never closed" = none := by decide

/-- C1: evaluation of `Connection::is_live` around task exit.  The claim says
that once the background task has exited, `is_live()` returns false on the
first poll and on every later poll.  The code returns **true** on the first
poll after the exit (`take_if` removes `rx` exactly when `try_recv()`
succeeds, and the call reports that the removal happened); only subsequent
polls return false.  While the task is still running, `is_live()` returns
false. -/
theorem C1_is_live_first_poll :
    (is_live after_task_exit).fst = true ∧
    (is_live (is_live after_task_exit).snd).fst = false ∧
    (is_live ⟨some .running⟩).fst = false := by decide

/-- C2: evaluation of the WHERE-clause generation at one user parameter
(`k = 1`) and one `like` filter.  The scan starts its placeholder counter at
0 (db.rs:904), so the filter emits `$1`, while the filter's value is appended
after the user parameters and is therefore bound as the 2nd parameter —
the claim's `$(k+i) = $2` placeholder is not what the code produces.  The
last conjunct checks that `null` filters bind no parameter and that the
counter advances only past parameter-using filters. -/
theorem C2_filter_placeholder_numbering :
    filter_clauses [⟨1, "name", .like, "ab"⟩] =
      ["\"1.name\" ILIKE CONCAT('%', $1::text, '%')"] ∧
    combined_params ["p1"] [⟨1, "name", .like, "ab"⟩] = ["p1", "ab"] ∧
    ("\"1.name\" ILIKE CONCAT('%', $1::text, '%')" : String) ≠
      "\"1.name\" ILIKE CONCAT('%', $2::text, '%')" ∧
    filter_clauses [⟨0, "a", .isNull, ""⟩, ⟨2, "c", .notLike, "w"⟩] =
      ["\"0.a\" IS NULL", "\"2.c\" NOT ILIKE CONCAT('%', $1::text, '%')"] := by decide

/-- C3 counterexample: with deque `[1]`, returning connection `2` places it
at the head (`[2, 1]`), but the next checkout (`pop_back`) yields connection
`1` — not the most recently returned connection `2`, contradicting the
claim's LIFO reading. -/
theorem C3_lifo_counterexample :
    check_in true 9 2 [1] = [2, 1] ∧
    (pop_back (check_in true 9 2 [1])).map Prod.fst = some 1 ∧
    ¬((pop_back (check_in true 9 2 [1])).map Prod.fst = some 2) := by decide

/-- C3 amended: a returned live connection is placed at the head of the
deque, and the next checkout pops the tail — the least recently returned
connection (FIFO) — whenever the deque was non-empty before the return. -/
theorem C3_fifo_checkout :
    ∀ (c r : Nat) (d : List Nat),
      check_in true r c d = c :: d ∧
      (d ≠ [] → (pop_back (check_in true r c d)).map Prod.fst = d.getLast?) := by
  intro c r d
  refine ⟨rfl, ?_⟩
  intro hd
  cases d with
  | nil => exact absurd rfl hd
  | cons b l =>
    obtain ⟨x, hx⟩ : ∃ x, (b :: l).getLast? = some x := by
      cases hh : (b :: l).getLast? with
      | none => simp [List.getLast?_eq_none_iff] at hh
      | some x => exact ⟨x, rfl⟩
    show (pop_back (c :: b :: l)).map Prod.fst = (b :: l).getLast?
    simp [pop_back, List.getLast?_cons_cons, hx]

/-- Witness for C3's amended statement: the checkout after returning `2` to
the deque `[1]` yields `1`. -/
theorem C3_fifo_witness :
    (pop_back (check_in true 9 2 [1])).map Prod.fst = some 1 :=
  ((C3_fifo_checkout 2 9 [1]).2 (by decide)).trans (by decide)

/-- C4: evaluation of the creation-completion paths at the failing inputs.
When password materialization fails and no cancellation fired, the code
installs `Failed` but returns before `notify.notify_waiters()` (lib.rs:169
returns ahead of lib.rs:202), so the completion neither retries nor
notifies; when `create_pool` bubbles an error (post-construction checkout or
version probe, lib.rs:253-254 via the `?` at lib.rs:172), the `Pending`
entry is left installed and nobody is notified.  Both outcomes violate the
claimed "retry, or install Active/Failed and notify waiters". -/
theorem C4_creation_completion :
    complete_creation (some "boom") false .ok false =
      ⟨some (.failed "Failed to load password: boom"), false, false⟩ ∧
    ¬ completion_ok (complete_creation (some "boom") false .ok false) ∧
    complete_creation none false (.bubbledErr "version probe failed") false =
      ⟨some .pending, false, false⟩ ∧
    ¬ completion_ok (complete_creation none false (.bubbledErr "version probe failed") false) := by
  refine ⟨by decide, ?_, by decide, ?_⟩
  · intro hok
    rcases hok with h | ⟨h, _⟩
    · exact absurd h (by decide)
    · exact absurd h (by decide)
  · intro hok
    rcases hok with h | ⟨h, _⟩
    · exact absurd h (by decide)
    · exact absurd h (by decide)

/-- Helper: `usize::div_ceil` agrees with the specification's ceiling. -/
theorem div_ceil_eq_spec_ceil (t p : Nat) (hp : 0 < p) :
    (t + p - 1) / p = spec_ceil t p := by
  cases t with
  | zero =>
    have h0 : p - 1 < p := by omega
    simp [spec_ceil, Nat.div_eq_of_lt h0]
  | succ n =>
    have h1 : n + 1 + p - 1 = n + p := by omega
    rw [h1, Nat.add_div_right _ hp, spec_ceil, Nat.succ_div]
    by_cases hd : p ∣ n + 1
    · have hm : (n + 1) % p = 0 := Nat.mod_eq_zero_of_dvd hd
      simp [hd, hm]
    · have hm : ¬((n + 1) % p = 0) := by
        intro hmm
        exact hd (Nat.dvd_of_mod_eq_zero hmm)
      simp [hd, hm]

/-- C5: for a positive page size `p` the page query appends
`LIMIT p OFFSET (page-1)*p`, the result's `total_count` is the full filtered
row count, `total_pages = ceil(T / p)` and `page_count ≤ p`; for a negative
page size the page query is the bare base query, `total_pages = 1`, and the
single page holds all rows. -/
theorem C5_pagination_metadata :
    ∀ (rows : List Nat) (base : String) (sort : Option QuerySort) (page : Nat) (p : Int),
      (0 < p →
        page_query base sort page p =
          "SELECT * FROM (\n" ++ base ++ "\n) _ " ++ sort_clause sort ++
            " LIMIT " ++ toString p.toNat ++ " OFFSET " ++
            toString ((page - 1) * p.toNat) ++ ";" ∧
        (paginated_select rows page p).total_count = rows.length ∧
        (paginated_select rows page p).total_pages = spec_ceil rows.length p.toNat ∧
        (paginated_select rows page p).page_count ≤ p.toNat) ∧
      (p < 0 →
        page_query base sort page p = base ∧
        (paginated_select rows page p).total_pages = 1 ∧
        page_rows rows page p = rows ∧
        (paginated_select rows page p).page_count = rows.length) := by
  intro rows base sort page p
  constructor
  · intro hp
    have hnp : ¬(p < 0) := by omega
    have hpn : 0 < p.toNat := by omega
    refine ⟨?_, rfl, ?_, ?_⟩
    · rw [page_query, if_neg hnp]
    · show total_pages_of rows.length p = spec_ceil rows.length p.toNat
      rw [total_pages_of, if_neg hnp]
      exact div_ceil_eq_spec_ceil _ _ hpn
    · show (page_rows rows page p).length ≤ p.toNat
      rw [page_rows, if_neg hnp, List.length_take]
      exact Nat.min_le_left _ _
  · intro hp
    refine ⟨?_, ?_, ?_, ?_⟩ <;>
      simp [page_query, page_rows, total_pages_of, paginated_select, hp]

/-- Witness for C5 at five rows with page size 2 (page 2) and page size −1. -/
theorem C5_pagination_witness :
    (paginated_select [10, 20, 30, 40, 50] 2 (2 : Int)).total_pages =
      spec_ceil ([10, 20, 30, 40, 50] : List Nat).length ((2 : Int)).toNat ∧
    page_rows [10, 20, 30, 40, 50] 1 (-1 : Int) = [10, 20, 30, 40, 50] :=
  ⟨((C5_pagination_metadata [10, 20, 30, 40, 50] "B" none 2 2).1 (by decide)).2.2.1,
   ((C5_pagination_metadata [10, 20, 30, 40, 50] "B" none 1 (-1)).2 (by decide)).2.2.1⟩

/-- C6: the engine subtracts, for whichever wrapped query failed, the exact
character length of the text that the wrapper places before the user's query:
`23 + |header|` for the count query, `16 + |header|` for the LIMIT/OFFSET
page query, `|header|` for the bare page query of a negative page size — so
a server error whose Original position points at user-character `X` is
surfaced at exactly `X`; an Internal position is dropped entirely. -/
theorem C6_error_position_offset :
    ∀ (cols : List String) (raw : String) (fs : List Filter) (sort : Option QuerySort)
      (page : Nat) (p : Int) (X : Nat),
      1 ≤ X →
      23 + (filter_header cols).length + X < 2 ^ 31 →
      (count_query (filtered_query cols raw fs) =
          ("SELECT COUNT(*) FROM (\n" ++ filter_header cols) ++ raw ++
            (filter_tail cols fs ++ "\n) _;") ∧
        ("SELECT COUNT(*) FROM (\n" ++ filter_header cols).length =
          23 + (filter_header cols).length ∧
        offset_position (("SELECT COUNT(*) FROM (\n" ++ filter_header cols).length + X)
          (count_query_offset (filter_header cols).length) = X) ∧
      (0 ≤ p →
        page_query (filtered_query cols raw fs) sort page p =
          ("SELECT * FROM (\n" ++ filter_header cols) ++ raw ++
            (filter_tail cols fs ++ ("\n) _ " ++ sort_clause sort ++ " LIMIT " ++
              toString p.toNat ++ " OFFSET " ++ toString ((page - 1) * p.toNat) ++ ";")) ∧
        ("SELECT * FROM (\n" ++ filter_header cols).length =
          16 + (filter_header cols).length ∧
        offset_position (("SELECT * FROM (\n" ++ filter_header cols).length + X)
          (page_query_base_offset p - (filter_header cols).length) = X) ∧
      (p < 0 →
        page_query (filtered_query cols raw fs) sort page p =
          filter_header cols ++ raw ++ filter_tail cols fs ∧
        offset_position ((filter_header cols).length + X)
          (page_query_base_offset p - (filter_header cols).length) = X) ∧
      (∀ (n : Nat) (q : String), extract_position (some (.internal n q)) = none) := by
  intro cols raw fs sort page p X hX hbound
  have h23 : ("SELECT COUNT(*) FROM (\n" : String).length = 23 := by decide
  have h16 : ("SELECT * FROM (\n" : String).length = 16 := by decide
  refine ⟨⟨?_, ?_, ?_⟩, ?_, ?_, fun n q => rfl⟩
  · simp [count_query, filtered_query, String.append_assoc]
  · rw [String.length_append, h23]
  · rw [String.length_append, h23, count_query_offset, offset_position]
    have hlt : 23 + (filter_header cols).length + X < 2 ^ 31 := hbound
    simp only [if_pos hlt]
    omega
  · intro hp
    have hnp : ¬(p < 0) := by omega
    refine ⟨?_, ?_, ?_⟩
    · rw [page_query, if_neg hnp]
      simp [filtered_query, String.append_assoc]
    · rw [String.length_append, h16]
    · rw [String.length_append, h16, page_query_base_offset, if_neg hnp, offset_position]
      have hlt : 16 + (filter_header cols).length + X < 2 ^ 31 := by omega
      simp only [if_pos hlt]
      omega
  · intro hp
    refine ⟨?_, ?_⟩
    · rw [page_query, if_pos hp]
      rfl
    · rw [page_query_base_offset, if_pos hp, offset_position]
      have hlt : (filter_header cols).length + X < 2 ^ 31 := by omega
      simp only [if_pos hlt]
      omega

/-- Witness for C6 at one column, a concrete user query and `X = 5`. -/
theorem C6_offset_witness :
    offset_position (("SELECT COUNT(*) FROM (\n" ++ filter_header ["a"]).length + 5)
        (count_query_offset (filter_header ["a"]).length) = 5 ∧
    offset_position ((filter_header ["a"]).length + 5)
        (page_query_base_offset (-1) - (filter_header ["a"]).length) = 5 :=
  ⟨((C6_error_position_offset ["a"] "SELECT 1" [] none 1 2 5 (by decide) (by decide)).1).2.2,
   ((C6_error_position_offset ["a"] "SELECT 1" [] none 1 (-1) 5 (by decide)
      (by decide)).2.2.1 (by decide)).2⟩

/-- C9 counterexample: for a column row with `is_nullable = 'YES'` the code
appends ` NOT NULL` to the generated definition, while the claim predicts no
`NOT NULL` suffix (the claim-side rendering differs at this row). -/
theorem C9_not_null_counterexample :
    column_def none ⟨"id", none, "YES", "text", none, none, none⟩ =
      some "id text NOT NULL" ∧
    column_def_claim none ⟨"id", none, "YES", "text", none, none, none⟩ =
      some "id text" ∧
    column_def none ⟨"id", none, "YES", "text", none, none, none⟩ ≠
      column_def_claim none ⟨"id", none, "YES", "text", none, none, none⟩ := by decide

/-- C9 amended: the generated column definition carries the ` NOT NULL`
suffix exactly when `is_nullable = 'YES'`, and no suffix otherwise. -/
theorem C9_not_null_amended :
    ∀ (pkey : Option String) (r : ColumnRow),
      column_def pkey r = column_def_amended pkey r := by
  intro pkey r
  have hrender : ∀ (dt : String) (ps : Option String),
      render_column_def r dt ps pkey = render_column_def_amended r dt ps pkey := by
    intro dt ps
    unfold render_column_def render_column_def_amended
    by_cases h : r.is_nullable = "YES" <;>
      simp [h, String.append_assoc]
  rcases hnp : r.numeric_precision with _ | prec
  · simp [column_def, column_def_amended, hnp, hrender]
  · rcases hir : int_precision_rename r.data_type prec r.numeric_scale with _ | ⟨dt, ps⟩
    · simp [column_def, column_def_amended, hnp, hir]
    · simp [column_def, column_def_amended, hnp, hir, hrender]

end Dbc
